import Mathlib

/-!
Shallow embedding of the image-uploader backend (`Backend/server.js`).

The backend stores uploaded images on disk and records one row per image in
an `Images` SQL table.  We embed:

* the data model (`ImageRow`, `DbState`, a set-of-paths filesystem `FsState`),
* JavaScript `parseInt` on decimal strings (`parseIntJS`),
* the multer upload middleware (file filter, 5 MiB size limit, disk write)
  and the `POST /api/upload` route handler (`postUpload`),
* the `DELETE /api/images/:id` route handler (`deleteHandler`),
* the `GET /api/images` handler (`listAll`),
* schema bootstrap (`checkAndCreateTable`),
* configuration resolution (`getDbConfig`, `getPortConfiguration`) and
  server startup (`initializeServer`).

External effects (SQL store, filesystem, prompts) are passed as explicit
state or as boolean failure flags, so every definition is executable.
-/

namespace ImageUploader

/-- One row of the `Images` table: `id INT IDENTITY(1,1)`,
`image_path NVARCHAR(255)`.  The `upload_date` column defaults in the store
and is never read by any handler, so it is not modelled. -/
structure ImageRow where
  id : Int
  image_path : String
deriving DecidableEq, Repr

/-- State of the `Images` table together with the IDENTITY counter of the store. -/
structure DbState where
  rows : List ImageRow
  nextId : Int
deriving DecidableEq, Repr

/-- The filesystem, relative to `baseDir` (`process.cwd()`).  `files` is the
set of paths present on disk (a list used as a set); `locked` is the set of
paths for which `fs.unlinkSync` raises (e.g. EPERM/EBUSY). -/
structure FsState where
  files : List String
  locked : List String
deriving DecidableEq, Repr

/-- Model of `fs.existsSync(p)`. -/
def existsSync (p : String) (fs : FsState) : Bool :=
  decide (p ∈ fs.files)

/-- Model of `fs.unlinkSync(p)`: raises when the path is absent or when the OS refuses
the unlink (modelled by `locked`); otherwise removes the path. -/
def unlinkSync (p : String) (fs : FsState) : Except Unit FsState :=
  if p ∈ fs.files ∧ p ∉ fs.locked then
    .ok { fs with files := fs.files.filter (fun q => decide (q ≠ p)) }
  else
    .error ()

/-- JavaScript `parseInt(s)` on the decimal path: skip leading whitespace,
optional sign, then the longest run of decimal digits; `none` models `NaN`
(no digit found).  Radix-16 literals (`0x...`) accepted by `parseInt` are not
modelled; no claim involves them. -/
def parseIntJS (s : String) : Option Int :=
  let t := s.toList.dropWhile Char.isWhitespace
  let signRest : Int × List Char :=
    match t with
    | '-' :: r => (-1, r)
    | '+' :: r => (1, r)
    | r => (1, r)
  let digits := signRest.2.takeWhile Char.isDigit
  if digits.isEmpty then none
  else some (signRest.1 * (digits.foldl (fun acc c => 10 * acc + ((c.toNat - 48 : Nat) : Int)) (0 : Int)))

/-- Model of `path.extname(s)`: the suffix from the last dot, or `""` when there is no
dot or the only dot starts the name. -/
def extname (s : String) : String :=
  let rev := s.toList.reverse
  let afterDot := rev.takeWhile (fun c => decide (c ≠ '.'))
  if afterDot.length = rev.length then ""
  else if afterDot.length + 1 = rev.length then ""
  else String.mk ('.' :: afterDot.reverse)

/-- The multer `filename` callback:
`Date.now() ++ "-" ++ Math.round(Math.random()*1e9) ++ path.extname(originalname)`.
Timestamp and random draw are parameters. -/
def uniqueName (now rand : Nat) (orig : String) : String :=
  toString now ++ "-" ++ toString rand ++ extname orig

/-- Declared fields of the inbound multipart file part. -/
structure InboundFile where
  originalname : String
  mimetype : String
  size : Nat
deriving DecidableEq, Repr

/-- A file multer has written to disk: `req.file.filename` and
`req.file.path` (the on-disk path, relative to `baseDir`). -/
structure SavedFile where
  filename : String
  path : String
deriving DecidableEq, Repr

/-- Allow-list `allowedTypes` used by the `fileFilter`. -/
def allowedTypes : List String := ["image/jpeg", "image/png", "image/gif"]

/-- Size limit `fileSize: 5 * 1024 * 1024` passed to multer. -/
def maxFileSize : Nat := 5 * 1024 * 1024

/-- Directory `uploads/images` under `baseDir`, with a trailing separator. -/
def imageUploadDirectory : String := "uploads/images/"

/-- Result of the single-file multer middleware: either control passes
to the route handler (with the saved file, when one was accepted and written),
or a `MulterError` (`LIMIT_FILE_SIZE`) is passed to `next(err)`. -/
inductive MulterStep
  | ok (fs : FsState) (file : Option SavedFile)
  | limitError (fs : FsState)
deriving DecidableEq, Repr

/-- Model of the multer middleware (storage, fileFilter, 5 MiB limit) on the
`image` field: no file part → continue with `req.file` undefined; `fileFilter` answers
`false` (declared MIME type not allowed) → the part is skipped, nothing is
written; size over the limit → the partial write is removed and
`LIMIT_FILE_SIZE` goes to the error middleware; otherwise the file is written
to the upload directory under the generated name. -/
def multerSingle (now rand : Nat) (file? : Option InboundFile) (fs : FsState) :
    MulterStep :=
  match file? with
  | none => .ok fs none
  | some f =>
    if f.mimetype ∈ allowedTypes then
      if f.size ≤ maxFileSize then
        let name := uniqueName now rand f.originalname
        let diskPath := imageUploadDirectory ++ name
        .ok { fs with files := diskPath :: fs.files } (some ⟨name, diskPath⟩)
      else .limitError fs
    else .ok fs none

/-- An HTTP outcome: a response with status and JSON body (a key/value list,
mirroring the object literal passed to `res.json`), or an exception escaping
the async handler (Express 4 sends no response for those). -/
inductive Outcome
  | resp (status : Nat) (body : List (String × String))
  | thrown
deriving DecidableEq, Repr

/-- The status of an outcome, when a response was sent. -/
def statusOf : Outcome → Option Nat
  | .resp s _ => some s
  | .thrown => none

/-- The keys of the JSON body of a response (empty when no response was
sent). -/
def bodyKeys : Outcome → List String
  | .resp _ body => body.map Prod.fst
  | .thrown => []

/-- Result of a `POST /api/upload` request: final store and filesystem, the
HTTP outcome, and whether the `INSERT` was attempted. -/
structure UploadResult where
  db : DbState
  fs : FsState
  outcome : Outcome
  insertAttempted : Bool
deriving DecidableEq, Repr

/-- Model of `INSERT INTO Images (image_path) VALUES (@path)`: the store
assigns the next IDENTITY value. -/
def dbInsert (p : String) (db : DbState) : DbState :=
  { rows := db.rows ++ [⟨db.nextId, p⟩], nextId := db.nextId + 1 }

/-- The route handler registered at POST `/api/upload`, after multer ran.
`insertFails` models the `INSERT` rejecting.  On insert failure the handler
calls `fs.unlinkSync(req.file.path)` with no try/catch around it: when the
unlink itself raises, the exception escapes the async handler — no log, no
response. -/
def uploadHandler (file? : Option SavedFile) (db : DbState) (fs : FsState)
    (insertFails : Bool) : UploadResult :=
  match file? with
  | none => ⟨db, fs, .resp 400 [("error", "No file uploaded")], false⟩
  | some f =>
    let imagePath := "/uploads/images/" ++ f.filename
    if insertFails then
      match unlinkSync f.path fs with
      | .ok fs' => ⟨db, fs', .resp 500 [("error", "DB insert failed")], true⟩
      | .error _ => ⟨db, fs, Outcome.thrown, true⟩
    else
      ⟨dbInsert imagePath db, fs,
        .resp 200 [("message", "Image uploaded successfully"),
                   ("path", imagePath), ("filename", f.filename)], true⟩

/-- The full `POST /api/upload` pipeline: the multer middleware, then the
route handler.  A `MulterError` is answered by the error middleware
(`res.status(500).json({ error: err.message })`). -/
def postUpload (now rand : Nat) (file? : Option InboundFile) (db : DbState)
    (fs : FsState) (insertFails : Bool) : UploadResult :=
  match multerSingle now rand file? fs with
  | .limitError fs' => ⟨db, fs', .resp 500 [("error", "File too large")], false⟩
  | .ok fs' saved => uploadHandler saved db fs' insertFails

/-- Handler of GET `/api/images` (`SELECT * FROM Images`): the rows as stored. -/
def listAll (db : DbState) : List ImageRow := db.rows

/-- Model of `SELECT image_path FROM Images WHERE id = @id`, first row of the
recordset. -/
def findRow (id : Int) (db : DbState) : Option ImageRow :=
  db.rows.find? (fun r => decide (r.id = id))

/-- Model of `DELETE FROM Images WHERE id = @id`. -/
def dbDelete (id : Int) (db : DbState) : DbState :=
  { db with rows := db.rows.filter (fun r => decide (r.id ≠ id)) }

/-- Leading-slash stripping: when `imagePath` starts with a slash, take
`imagePath.substring(1)`, else `imagePath` itself; the result is then
resolved against `baseDir`, so it is already the on-disk path in our
`baseDir`-relative filesystem. -/
def relativeOf (p : String) : String :=
  match p.toList with
  | '/' :: rest => String.mk rest
  | _ => p

/-- Result of a `DELETE /api/images/:id` request: final store and
filesystem, the HTTP outcome, and whether the database respectively the
filesystem were touched. -/
structure DeleteResult where
  db : DbState
  fs : FsState
  outcome : Outcome
  dbAccessed : Bool
  fsAccessed : Bool
deriving DecidableEq, Repr

/-- The route handler registered at DELETE `/api/images/:id`.  `selectFails` and
`deleteFails` model the two queries rejecting; both are caught by the
try/catch of the handler, which answers 500 `Delete failed`.  The id is validated
with `parseInt`/`isNaN` before anything else; the file is unlinked only when
`existsSync` holds (a missing file is only warned about); the row is deleted
after the file step. -/
def deleteHandler (idParam : String) (db : DbState) (fs : FsState)
    (selectFails deleteFails : Bool) : DeleteResult :=
  match parseIntJS idParam with
  | none => ⟨db, fs, .resp 400 [("error", "Invalid ID format")], false, false⟩
  | some id =>
    if selectFails then
      ⟨db, fs, .resp 500 [("error", "Delete failed")], true, false⟩
    else
      match findRow id db with
      | none => ⟨db, fs, .resp 404 [("error", "Image not found")], true, false⟩
      | some r =>
        let fullPath := relativeOf r.image_path
        if existsSync fullPath fs then
          match unlinkSync fullPath fs with
          | .error _ => ⟨db, fs, .resp 500 [("error", "Delete failed")], true, true⟩
          | .ok fs' =>
            if deleteFails then
              ⟨db, fs', .resp 500 [("error", "Delete failed")], true, true⟩
            else
              ⟨dbDelete id db, fs', .resp 200 [("message", "Image deleted")], true, true⟩
        else
          if deleteFails then
            ⟨db, fs, .resp 500 [("error", "Delete failed")], true, true⟩
          else
            ⟨dbDelete id db, fs, .resp 200 [("message", "Image deleted")], true, true⟩

/-! Schema bootstrap (`checkAndCreateTable`). -/

/-- Whether `dbo.Images` exists in the catalog of the store. -/
structure Catalog where
  imagesTable : Bool
deriving DecidableEq, Repr

/-- The two queries the bootstrap can issue. -/
inductive SqlQuery
  | selectObjectId
  | createTableImages
deriving DecidableEq, Repr

/-- Result of `checkAndCreateTable`: catalog afterwards, the returned value,
and the queries issued in order. -/
structure BootstrapResult where
  catalog : Catalog
  returned : Bool
  queries : List SqlQuery
deriving DecidableEq, Repr

/-- Model of `checkAndCreateTable(pool)`: query OBJECT_ID of `dbo.Images`; when the
result is null, `CREATE TABLE Images (...)`; returns `true` either way. -/
def checkAndCreateTable (cat : Catalog) : BootstrapResult :=
  if cat.imagesTable then
    ⟨cat, true, [.selectObjectId]⟩
  else
    ⟨⟨true⟩, true, [.selectObjectId, .createTableImages]⟩

/-! Configuration resolution. -/

/-- A parsed `config.json` object.  A missing string key is modelled as `""`
(in JavaScript both `undefined` and `""` are falsy everywhere the fields are
tested); `port` is `none` when the key is absent. -/
structure ConfigJson where
  user : String
  password : String
  server : String
  database : String
  port : Option Int
deriving DecidableEq, Repr

/-- The persisted `config.json`: absent, present but failing `JSON.parse`,
or parsed. -/
inductive ConfigFileState
  | absent
  | corrupt
  | parsed (cfg : ConfigJson)
deriving DecidableEq, Repr

/-- The database environment variables (`none` = unset). -/
structure EnvVars where
  dbUser : Option String
  dbPassword : Option String
  dbServer : Option String
  dbName : Option String
deriving DecidableEq, Repr

/-- JavaScript truthiness of an optional environment string. -/
def envTruthy (o : Option String) : Bool :=
  match o with
  | some s => decide (s ≠ "")
  | none => false

/-- Case-insensitive comparison of a prompt answer with the letter y,
mirroring `changePort.toLowerCase()` compared with that letter. -/
def isYes (s : String) : Bool :=
  decide (s = "y" ∨ s = "Y")

/-- Which step of `getDbConfig` produced the configuration. -/
inductive DbConfigStep
  | fromFile
  | fromEnv
  | prompted
deriving DecidableEq, Repr

/-- Result of `getDbConfig`: the configuration object, the step that
produced it, and whether `config.json` was (re)written. -/
structure DbConfigResult where
  config : ConfigJson
  step : DbConfigStep
  wroteFile : Bool
deriving DecidableEq, Repr

/-- The config object built from the four `DB_*` environment variables. -/
def envConfig (env : EnvVars) : ConfigJson :=
  ⟨env.dbUser.getD "", env.dbPassword.getD "", env.dbServer.getD "",
    env.dbName.getD "", none⟩

/-- Model of `getDbConfig()`.  Returns the `console.error` lines emitted and either a
`ConfigurationError` (a prompt failed) or the resolved configuration.
The `prompt` parameter is the joint outcome of the four credential prompts;
`saveAns` answers `Save this configuration for future use? (y/n)`. -/
def getDbConfig (file : ConfigFileState) (env : EnvVars)
    (prompt : Except Unit ConfigJson) (saveAns : String) :
    List String × Except Unit DbConfigResult :=
  match file with
  | .parsed cfg => ([], .ok ⟨cfg, .fromFile, false⟩)
  | .corrupt =>
    -- JSON.parse threw: log `Error reading config file:` and fall through.
    if envTruthy env.dbUser ∧ envTruthy env.dbPassword
        ∧ envTruthy env.dbServer ∧ envTruthy env.dbName then
      (["Error reading config file:"], .ok ⟨envConfig env, .fromEnv, true⟩)
    else
      match prompt with
      | .error _ => (["Error reading config file:"], .error ())
      | .ok cfg => (["Error reading config file:"], .ok ⟨cfg, .prompted, isYes saveAns⟩)
  | .absent =>
    if envTruthy env.dbUser ∧ envTruthy env.dbPassword
        ∧ envTruthy env.dbServer ∧ envTruthy env.dbName then
      ([], .ok ⟨envConfig env, .fromEnv, true⟩)
    else
      match prompt with
      | .error _ => ([], .error ())
      | .ok cfg => ([], .ok ⟨cfg, .prompted, isYes saveAns⟩)

/-- The `port` the config file offers: `if (config.port)` is a truthiness
test, so an absent key or a zero value falls through. -/
def portFromFile (file : ConfigFileState) : Option Int :=
  match file with
  | .parsed cfg =>
    match cfg.port with
    | some p => if p = 0 then none else some p
    | none => none
  | _ => none

/-- The interactive port step, reached only in packaged (`process.pkg`)
mode: first prompt `y/n`, then the port number; `NaN` or an out-of-range
number falls back to 3001; answering anything but yes falls through. -/
def promptedPort (pkg : Bool) (ans1 ans2 : String) : Option Int :=
  if pkg ∧ isYes ans1 then
    match parseIntJS ans2 with
    | none => some 3001
    | some n => if n < 1 ∨ 65535 < n then some 3001 else some n
  else none

/-- Model of `getPortConfiguration()`: environment `PORT` (truthy) wins and is
`parseInt`ed (`none` models `NaN`); else a truthy `port` in a parsed
`config.json`; else the packaged-mode prompt; else 3001.  The write of a
prompted port back into `config.json` is a side effect no claim touches and
is not modelled. -/
def getPortConfiguration (envPORT : Option String) (file : ConfigFileState)
    (pkg : Bool) (ans1 ans2 : String) : Option Int :=
  if envTruthy envPORT then parseIntJS (envPORT.getD "")
  else
    match portFromFile file with
    | some p => some p
    | none =>
      match promptedPort pkg ans1 ans2 with
      | some p => some p
      | none => some 3001

/-! Server startup (`initializeServer`). -/

/-- Model of `validateDbConfig`: the four required fields must be truthy
(non-empty). -/
def validateDbConfigOk (c : ConfigJson) : Bool :=
  decide (c.user ≠ "" ∧ c.password ≠ "" ∧ c.server ≠ "" ∧ c.database ≠ "")

/-- Outcome of `initializeServer()`: whether the HTTP listener was opened,
the process exit code (`none` = the process keeps running), and the
`console.error` lines of the catch block of `initializeServer` itself. -/
structure InitOutcome where
  listening : Bool
  exitCode : Option Int
  logs : List String
deriving DecidableEq, Repr

/-- The catch block of `initializeServer`: logs a generic header (not the
cause), closes the pool, returns.  Neither it nor the outer
`initializeServer().catch` calls `process.exit`, so the process stays
alive. -/
def initFailure : InitOutcome :=
  ⟨false, none, ["❌ Server initialization failed:"]⟩

/-- Body of `initializeServer` from the `validateDbConfig` call on:
validate, connect (`connectOk`), bootstrap the schema (`tableOk` models the
bootstrap queries succeeding), then listen.  Any throw lands in the catch
block. -/
def initAfterConfig (cfgResult : Except Unit DbConfigResult)
    (connectOk tableOk : Bool) : InitOutcome :=
  match cfgResult with
  | .error _ => initFailure
  | .ok r =>
    if validateDbConfigOk r.config then
      if connectOk then
        if tableOk then ⟨true, none, []⟩
        else initFailure
      else initFailure
    else initFailure

/-- Model of `initializeServer()`: resolve the database configuration, then
run the rest of the startup sequence. -/
def initializeServer (file : ConfigFileState) (env : EnvVars)
    (prompt : Except Unit ConfigJson) (saveAns : String)
    (connectOk tableOk : Bool) : InitOutcome :=
  initAfterConfig (getDbConfig file env prompt saveAns).2 connectOk tableOk

/-! Concrete states used by the witnesses and counterexamples. -/

/-- The empty table with the IDENTITY counter at 1. -/
def db0 : DbState := ⟨[], 1⟩

/-- A table holding one row with id 1. -/
def db1 : DbState := ⟨[⟨1, "/uploads/images/a.jpg"⟩], 2⟩

/-- The empty filesystem. -/
def fs0 : FsState := ⟨[], []⟩

/-- A filesystem holding the file backing the single row of `db1`. -/
def fs1 : FsState := ⟨["uploads/images/a.jpg"], []⟩

/-- A JPEG of 1000 bytes. -/
def jpgFile : InboundFile := ⟨"cat.jpg", "image/jpeg", 1000⟩

/-- A JPEG one byte over the 5 MiB limit. -/
def bigJpg : InboundFile := ⟨"big.jpg", "image/jpeg", 5 * 1024 * 1024 + 1⟩

/-- A declared PDF (type outside the allow-list). -/
def pdfFile : InboundFile := ⟨"doc.pdf", "application/pdf", 1000⟩

/-- A filesystem in which the path multer will write (for `now = 100`,
`rand = 5`, extension `.jpg`) refuses to be unlinked. -/
def lockedFs : FsState := ⟨[], ["uploads/images/100-5.jpg"]⟩

/-- A complete configuration object. -/
def goodCfg : ConfigJson := ⟨"u", "pw", "srv", "db", none⟩

/-- No `DB_*` environment variables. -/
def env0 : EnvVars := ⟨none, none, none, none⟩

/-! Helper lemmas shared by the claim proofs. -/

/-- A successful unlink filters the path out of the files, in explicit form. -/
theorem unlinkSync_ok (p : String) (fs : FsState)
    (h1 : p ∈ fs.files) (h2 : p ∉ fs.locked) :
    unlinkSync p fs = .ok ⟨fs.files.filter (fun q => decide (q ≠ p)), fs.locked⟩ := by
  simp only [unlinkSync, if_pos (And.intro h1 h2)]

/-- An unlink of a locked path raises. -/
theorem unlinkSync_locked (p : String) (fs : FsState) (h2 : p ∈ fs.locked) :
    unlinkSync p fs = .error () := by
  have : ¬ (p ∈ fs.files ∧ p ∉ fs.locked) := fun h => h.2 h2
  simp only [unlinkSync, if_neg this]

/-- The unlinked path is not among the filtered files. -/
theorem not_mem_filter_ne (p : String) (l : List String) :
    p ∉ l.filter (fun q => decide (q ≠ p)) := by
  intro h
  have := (List.mem_filter.mp h).2
  simp at this

/-- Rows surviving `dbDelete id` never carry `id`. -/
theorem dbDelete_id_not_mem (id : Int) (db : DbState) :
    ∀ row ∈ (dbDelete id db).rows, row.id ≠ id := by
  intro row h
  have := (List.mem_filter.mp h).2
  simpa using this

/-- A multer run that accepts the file writes it to the upload directory. -/
theorem multerSingle_accepts (now rand : Nat) (f : InboundFile) (fs : FsState)
    (hm : f.mimetype ∈ allowedTypes) (hs : f.size ≤ maxFileSize) :
    multerSingle now rand (some f) fs =
      .ok ⟨(imageUploadDirectory ++ uniqueName now rand f.originalname) :: fs.files, fs.locked⟩
        (some ⟨uniqueName now rand f.originalname,
               imageUploadDirectory ++ uniqueName now rand f.originalname⟩) := by
  simp only [multerSingle, if_pos hm, if_pos hs]

/-! Claim theorems. -/

/-- Claim C2, counterexample: the identifier is not required to parse as a
positive integer.  The identifier `-5` parses (via `parseInt`) to the
negative integer `-5`, passes validation, and a database lookup occurs
(`dbAccessed`); the outcome is 404, not the 400 validation error the claim
requires for identifiers that are not positive integers. -/
theorem delete_negative_id_counterexample :
    parseIntJS "-5" = some (-5)
    ∧ (deleteHandler "-5" db1 fs1 false false).dbAccessed = true
    ∧ statusOf (deleteHandler "-5" db1 fs1 false false).outcome = some 404 := by
  refine ⟨by decide, by decide, by decide⟩

/-- Claim C2 (amended): for every deletion request whose identifier does not
parse as an integer under `parseInt` (`NaN`), the handler answers the 400
validation error `Invalid ID format` before any database or filesystem
access, leaving both unchanged.  (Identifiers parsing to zero or negative
integers are not rejected by this validation.) -/
theorem delete_nonnumeric_id_rejected (idParam : String) (db : DbState)
    (fs : FsState) (sf df : Bool) (h : parseIntJS idParam = none) :
    deleteHandler idParam db fs sf df
      = ⟨db, fs, .resp 400 [("error", "Invalid ID format")], false, false⟩ := by
  simp only [deleteHandler, h]

/-- Claim C2, witness at the non-numeric identifier `abc`. -/
theorem delete_nonnumeric_id_rejected_witness :
    parseIntJS "abc" = none
    ∧ deleteHandler "abc" db1 fs1 false false
        = ⟨db1, fs1, .resp 400 [("error", "Invalid ID format")], false, false⟩ :=
  ⟨by decide, delete_nonnumeric_id_rejected "abc" db1 fs1 false false (by decide)⟩

/-- Claim C8: deleting an id for which no record exists (with the lookup
query itself succeeding) answers 404 `Image not found` and performs no
further action: rows and files are unchanged and the filesystem is never
touched. -/
theorem delete_missing_id_not_found (idParam : String) (db : DbState)
    (fs : FsState) (df : Bool) (id : Int)
    (hp : parseIntJS idParam = some id) (hr : findRow id db = none) :
    deleteHandler idParam db fs false df
      = ⟨db, fs, .resp 404 [("error", "Image not found")], true, false⟩ := by
  simp only [deleteHandler, hp, hr, Bool.false_eq_true, if_false]

/-- Claim C8, witness at id 999 against a one-row store. -/
theorem delete_missing_id_not_found_witness :
    parseIntJS "999" = some 999 ∧ findRow 999 db1 = none
    ∧ deleteHandler "999" db1 fs1 false false
        = ⟨db1, fs1, .resp 404 [("error", "Image not found")], true, false⟩ :=
  ⟨by decide, by decide,
    delete_missing_id_not_found "999" db1 fs1 false 999 (by decide) (by decide)⟩

/-- Claim C9: schema bootstrap is idempotent.  Against any catalog it first
issues the existence query; it issues the CREATE TABLE exactly when the
table is absent, after which the table exists; a second run issues only the
existence query (no create); both runs return `true`. -/
theorem schema_bootstrap_idempotent (cat : Catalog) :
    (checkAndCreateTable cat).queries.head? = some .selectObjectId
    ∧ ((SqlQuery.createTableImages ∈ (checkAndCreateTable cat).queries)
        ↔ cat.imagesTable = false)
    ∧ (checkAndCreateTable cat).returned = true
    ∧ (checkAndCreateTable cat).catalog = ⟨true⟩
    ∧ checkAndCreateTable (checkAndCreateTable cat).catalog
        = ⟨⟨true⟩, true, [.selectObjectId]⟩ := by
  obtain ⟨b⟩ := cat
  cases b <;> exact ⟨by decide, by decide, by decide, by decide, by decide⟩

/-- Claim C9, witness: bootstrap starting from an empty catalog, run
twice. -/
theorem schema_bootstrap_idempotent_witness :
    (checkAndCreateTable ⟨false⟩).returned = true
    ∧ checkAndCreateTable (checkAndCreateTable ⟨false⟩).catalog
        = ⟨⟨true⟩, true, [.selectObjectId]⟩ :=
  ⟨(schema_bootstrap_idempotent ⟨false⟩).2.2.1,
   (schema_bootstrap_idempotent ⟨false⟩).2.2.2.2⟩

/-- Claim C10: when `config.json` exists but fails to parse, database
configuration resolution returns exactly what it returns when the file is
absent (so it neither fails because of the file nor uses it — it falls
through to the environment step and then the prompt), it additionally logs
the parse error, and the configuration it produces never stems from the
file. -/
theorem corrupt_config_falls_through (env : EnvVars)
    (prompt : Except Unit ConfigJson) (saveAns : String) :
    (getDbConfig .corrupt env prompt saveAns).2
      = (getDbConfig .absent env prompt saveAns).2
    ∧ (getDbConfig .corrupt env prompt saveAns).1
      = "Error reading config file:" :: (getDbConfig .absent env prompt saveAns).1
    ∧ ∀ r, (getDbConfig .corrupt env prompt saveAns).2 = .ok r →
        r.step ≠ .fromFile := by
  by_cases hc : (envTruthy env.dbUser = true ∧ envTruthy env.dbPassword = true
      ∧ envTruthy env.dbServer = true ∧ envTruthy env.dbName = true)
  · refine ⟨?_, ?_, ?_⟩
    · simp only [getDbConfig, if_pos hc]
    · simp only [getDbConfig, if_pos hc]
    · intro r hres
      simp only [getDbConfig, if_pos hc, Except.ok.injEq] at hres
      rw [← hres]
      show DbConfigStep.fromEnv ≠ DbConfigStep.fromFile
      decide
  · cases prompt with
    | error e =>
      refine ⟨?_, ?_, ?_⟩
      · simp only [getDbConfig, if_neg hc]
      · simp only [getDbConfig, if_neg hc]
      · intro r hres
        simp only [getDbConfig, if_neg hc] at hres
        exact absurd hres (by simp)
    | ok cfg =>
      refine ⟨?_, ?_, ?_⟩
      · simp only [getDbConfig, if_neg hc]
      · simp only [getDbConfig, if_neg hc]
      · intro r hres
        simp only [getDbConfig, if_neg hc, Except.ok.injEq] at hres
        rw [← hres]
        show DbConfigStep.prompted ≠ DbConfigStep.fromFile
        decide

/-- Claim C10, witness: corrupt file, empty environment, successful
prompt. -/
theorem corrupt_config_falls_through_witness :
    (getDbConfig .corrupt env0 (.ok goodCfg) "n").2
      = (getDbConfig .absent env0 (.ok goodCfg) "n").2 :=
  (corrupt_config_falls_through env0 (.ok goodCfg) "n").1

/-- Claim C5: the port cascade.  A set (truthy) `PORT` environment variable
resolves to its `parseInt` value whatever the config file holds; with no
environment `PORT`, a parsed config file with a port field in range resolves
to that field; with neither, outside packaged mode (so no interactive
override), resolution yields 3001 — whether the file is absent, corrupt, or
parsed without a port field. -/
theorem port_resolution_cascade :
    (∀ (s : String) (n : Int) (file : ConfigFileState) (pkg : Bool) (a1 a2 : String),
        s ≠ "" → parseIntJS s = some n →
        getPortConfiguration (some s) file pkg a1 a2 = some n)
    ∧ (∀ (cfg : ConfigJson) (p : Int) (pkg : Bool) (a1 a2 : String),
        0 < p → cfg.port = some p →
        getPortConfiguration none (.parsed cfg) pkg a1 a2 = some p)
    ∧ (∀ a1 a2 : String,
        getPortConfiguration none .absent false a1 a2 = some 3001
        ∧ getPortConfiguration none .corrupt false a1 a2 = some 3001
        ∧ ∀ cfg : ConfigJson, cfg.port = none →
            getPortConfiguration none (.parsed cfg) false a1 a2 = some 3001) := by
  refine ⟨?_, ?_, ?_⟩
  · intro s n file pkg a1 a2 hs hn
    have ht : envTruthy (some s) = true := by
      simp only [envTruthy, decide_eq_true_eq]
      exact hs
    simp only [getPortConfiguration, ht, if_true, Option.getD_some, hn]
  · intro cfg p pkg a1 a2 hp hport
    have hne : ¬ p = 0 := by omega
    simp only [getPortConfiguration, envTruthy, Bool.false_eq_true, if_false,
      portFromFile, hport, if_neg hne]
  · intro a1 a2
    refine ⟨?_, ?_, ?_⟩
    · simp [getPortConfiguration, envTruthy, portFromFile, promptedPort]
    · simp [getPortConfiguration, envTruthy, portFromFile, promptedPort]
    · intro cfg hport
      simp [getPortConfiguration, envTruthy, portFromFile, hport, promptedPort]

/-- Claim C5, witness: `PORT=4000` beats a config file carrying port 5000;
without `PORT` the file port 5000 wins; with neither source, 3001. -/
theorem port_resolution_cascade_witness :
    ("4000" : String) ≠ "" ∧ parseIntJS "4000" = some 4000
    ∧ getPortConfiguration (some "4000") (.parsed ⟨"", "", "", "", some 5000⟩)
        false "" "" = some 4000
    ∧ getPortConfiguration none (.parsed ⟨"", "", "", "", some 5000⟩)
        false "" "" = some 5000
    ∧ getPortConfiguration none .absent false "" "" = some 3001 :=
  ⟨by decide, by decide,
    port_resolution_cascade.1 "4000" 4000 (.parsed ⟨"", "", "", "", some 5000⟩)
      false "" "" (by decide) (by decide),
    port_resolution_cascade.2.1 ⟨"", "", "", "", some 5000⟩ 5000 false "" ""
      (by decide) (by decide),
    (port_resolution_cascade.2.2 "" "").1⟩

/-- Claim C4, counterexample: with a complete, valid configuration file but
a failing initial database connection, startup ends with the catch block:
the process reports no exit code (it keeps running), contradicting the
claimed non-zero exit. -/
theorem startup_failure_no_exit_counterexample :
    initializeServer (.parsed goodCfg) env0 (.ok goodCfg) "n" false true
      = initFailure
    ∧ initFailure.exitCode = none
    ∧ initFailure.listening = false := by
  refine ⟨by decide, by decide, by decide⟩

/-- Claim C4 (amended): the process never calls `process.exit` during
startup: whatever happens, the outcome carries no exit code.  When
configuration resolution fails or the initial connection fails, the catch
block logs a generic failure header (not the cause) and the process keeps
running without a listener. -/
theorem startup_failure_keeps_process_running (file : ConfigFileState)
    (env : EnvVars) (prompt : Except Unit ConfigJson) (saveAns : String)
    (connectOk tableOk : Bool) :
    (initializeServer file env prompt saveAns connectOk tableOk).exitCode = none
    ∧ ((getDbConfig file env prompt saveAns).2 = .error () →
        initializeServer file env prompt saveAns connectOk tableOk = initFailure)
    ∧ (connectOk = false →
        initializeServer file env prompt saveAns connectOk tableOk = initFailure) := by
  unfold initializeServer
  generalize (getDbConfig file env prompt saveAns).2 = res
  cases res with
  | error e => exact ⟨rfl, fun _ => rfl, fun _ => rfl⟩
  | ok r =>
    refine ⟨?_, ?_, ?_⟩
    · by_cases hv : validateDbConfigOk r.config
      · by_cases hc : connectOk
        · by_cases ht : tableOk
          · simp [initAfterConfig, hv, hc, ht]
          · simp [initAfterConfig, hv, hc, ht, initFailure]
        · simp [initAfterConfig, hv, hc, initFailure]
      · simp [initAfterConfig, hv, initFailure]
    · intro hres
      exact absurd hres (by simp)
    · intro hc
      subst hc
      by_cases hv : validateDbConfigOk r.config
      · simp [initAfterConfig, hv]
      · simp [initAfterConfig, hv]

/-- Claim C4, witness: a failing connection, run through the theorem. -/
theorem startup_failure_keeps_process_running_witness :
    (initializeServer (.parsed goodCfg) env0 (.ok goodCfg) "n" false true).exitCode
      = none :=
  (startup_failure_keeps_process_running (.parsed goodCfg) env0 (.ok goodCfg)
    "n" false true).1

/-- Claim C1, counterexample: the rollback is not best-effort.  With a valid
JPEG whose just-written file refuses to be unlinked and a failing insert,
the handler throws: no 500 database-error response is sent, and the file
remains on disk — an orphan survives the request. -/
theorem upload_rollback_thrown_counterexample :
    (postUpload 100 5 (some jpgFile) db0 lockedFs true).outcome = Outcome.thrown
    ∧ "uploads/images/100-5.jpg"
        ∈ (postUpload 100 5 (some jpgFile) db0 lockedFs true).fs.files
    ∧ statusOf (postUpload 100 5 (some jpgFile) db0 lockedFs true).outcome
        ≠ some 500 := by
  refine ⟨by decide, by decide, by decide⟩

/-- Claim C1 (amended): on insert failure the handler unconditionally
unlinks the just-written file.  When the unlink succeeds, it answers the 500
database error, the file is gone from disk (no orphan), and no row was
added.  When the unlink itself raises, the exception escapes the handler —
nothing is logged, no response is sent, and the file stays on disk. -/
theorem upload_insert_failure_rollback (now rand : Nat) (f : InboundFile)
    (db : DbState) (fs : FsState)
    (hm : f.mimetype ∈ allowedTypes) (hs : f.size ≤ maxFileSize) :
    ((imageUploadDirectory ++ uniqueName now rand f.originalname) ∉ fs.locked →
      (postUpload now rand (some f) db fs true).outcome
          = .resp 500 [("error", "DB insert failed")]
      ∧ (imageUploadDirectory ++ uniqueName now rand f.originalname)
          ∉ (postUpload now rand (some f) db fs true).fs.files
      ∧ (postUpload now rand (some f) db fs true).db = db)
    ∧ ((imageUploadDirectory ++ uniqueName now rand f.originalname) ∈ fs.locked →
      (postUpload now rand (some f) db fs true).outcome = Outcome.thrown
      ∧ (imageUploadDirectory ++ uniqueName now rand f.originalname)
          ∈ (postUpload now rand (some f) db fs true).fs.files) := by
  have hmu := multerSingle_accepts now rand f fs hm hs
  constructor
  · intro hl
    have hu := unlinkSync_ok
      (imageUploadDirectory ++ uniqueName now rand f.originalname)
      ⟨(imageUploadDirectory ++ uniqueName now rand f.originalname) :: fs.files,
        fs.locked⟩
      (List.mem_cons_self _ _) hl
    refine ⟨?_, ?_, ?_⟩
    · simp [postUpload, hmu, uploadHandler, hu]
    · simp only [postUpload, hmu, uploadHandler, hu]
      exact not_mem_filter_ne _ _
    · simp [postUpload, hmu, uploadHandler, hu]
  · intro hl
    have hu := unlinkSync_locked
      (imageUploadDirectory ++ uniqueName now rand f.originalname)
      ⟨(imageUploadDirectory ++ uniqueName now rand f.originalname) :: fs.files,
        fs.locked⟩ hl
    refine ⟨?_, ?_⟩
    · simp [postUpload, hmu, uploadHandler, hu]
    · simp only [postUpload, hmu, uploadHandler, hu]
      exact List.mem_cons_self _ _

/-- Claim C1, witness: a valid JPEG on an unlocked filesystem with a failing
insert is answered 500. -/
theorem upload_insert_failure_rollback_witness :
    jpgFile.mimetype ∈ allowedTypes ∧ jpgFile.size ≤ maxFileSize
    ∧ (postUpload 100 5 (some jpgFile) db0 fs0 true).outcome
        = .resp 500 [("error", "DB insert failed")] :=
  ⟨by decide, by decide,
    ((upload_insert_failure_rollback 100 5 jpgFile db0 fs0 (by decide)
      (by decide)).1 (by decide)).1⟩

/-- Claim C3, counterexample: a concrete successful upload.  The response
body has exactly the keys `message`, `path`, `filename`: the newly assigned
record id is not reported. -/
theorem upload_response_lacks_id_counterexample :
    (postUpload 100 5 (some jpgFile) db0 fs0 false).outcome
      = .resp 200 [("message", "Image uploaded successfully"),
                   ("path", "/uploads/images/100-5.jpg"),
                   ("filename", "100-5.jpg")]
    ∧ bodyKeys (postUpload 100 5 (some jpgFile) db0 fs0 false).outcome
        = ["message", "path", "filename"]
    ∧ "id" ∉ bodyKeys (postUpload 100 5 (some jpgFile) db0 fs0 false).outcome := by
  refine ⟨by decide, by decide, by decide⟩

/-- Claim C3 (amended): a successful upload (valid file, insert succeeds)
answers 200 with a body reporting the stored path and the generated
filename, but no `id` key; the inserted row carries the stored path (and the
id the store assigned, which the response omits). -/
theorem upload_success_reports_path_and_filename (now rand : Nat)
    (f : InboundFile) (db : DbState) (fs : FsState)
    (hm : f.mimetype ∈ allowedTypes) (hs : f.size ≤ maxFileSize) :
    (postUpload now rand (some f) db fs false).outcome
      = .resp 200 [("message", "Image uploaded successfully"),
          ("path", "/uploads/images/" ++ uniqueName now rand f.originalname),
          ("filename", uniqueName now rand f.originalname)]
    ∧ "id" ∉ bodyKeys (postUpload now rand (some f) db fs false).outcome
    ∧ listAll (postUpload now rand (some f) db fs false).db
        = listAll db
            ++ [⟨db.nextId, "/uploads/images/" ++ uniqueName now rand f.originalname⟩] := by
  have hmu := multerSingle_accepts now rand f fs hm hs
  have hout : (postUpload now rand (some f) db fs false).outcome
      = .resp 200 [("message", "Image uploaded successfully"),
          ("path", "/uploads/images/" ++ uniqueName now rand f.originalname),
          ("filename", uniqueName now rand f.originalname)] := by
    simp [postUpload, hmu, uploadHandler]
  refine ⟨hout, ?_, ?_⟩
  · rw [hout]
    show "id" ∉ (["message", "path", "filename"] : List String)
    decide
  · simp [postUpload, hmu, uploadHandler, dbInsert, listAll]

/-- Claim C3, witness at a concrete valid upload. -/
theorem upload_success_reports_path_and_filename_witness :
    jpgFile.mimetype ∈ allowedTypes ∧ jpgFile.size ≤ maxFileSize
    ∧ (postUpload 100 5 (some jpgFile) db0 fs0 false).outcome
        = .resp 200 [("message", "Image uploaded successfully"),
            ("path", "/uploads/images/" ++ uniqueName 100 5 jpgFile.originalname),
            ("filename", uniqueName 100 5 jpgFile.originalname)] :=
  ⟨by decide, by decide,
    (upload_success_reports_path_and_filename 100 5 jpgFile db0 fs0
      (by decide) (by decide)).1⟩

/-- Claim C6, counterexample: an upload one byte over the 5 MiB limit is
answered by the generic error middleware with status 500 (`File too
large`), not with the 400 validation error the claim requires; the insert
is still never attempted. -/
theorem oversize_upload_counterexample :
    statusOf (postUpload 100 5 (some bigJpg) db0 fs0 false).outcome = some 500
    ∧ statusOf (postUpload 100 5 (some bigJpg) db0 fs0 false).outcome ≠ some 400
    ∧ (postUpload 100 5 (some bigJpg) db0 fs0 false).insertAttempted = false := by
  refine ⟨by decide, by decide, by decide⟩

/-- Claim C6 (amended): a missing file and a disallowed declared MIME type
are answered with the 400 validation error `No file uploaded`, with no disk
write and no database work; an allowed-type file over 5 MiB is rejected
before any database work and leaves no file on disk, but is answered 500 by
the error middleware, not 400. -/
theorem upload_rejections_before_db (now rand : Nat) (db : DbState)
    (fs : FsState) (insertFails : Bool) :
    postUpload now rand none db fs insertFails
      = ⟨db, fs, .resp 400 [("error", "No file uploaded")], false⟩
    ∧ (∀ f : InboundFile, f.mimetype ∉ allowedTypes →
        postUpload now rand (some f) db fs insertFails
          = ⟨db, fs, .resp 400 [("error", "No file uploaded")], false⟩)
    ∧ (∀ f : InboundFile, f.mimetype ∈ allowedTypes → maxFileSize < f.size →
        postUpload now rand (some f) db fs insertFails
          = ⟨db, fs, .resp 500 [("error", "File too large")], false⟩) := by
  refine ⟨?_, ?_, ?_⟩
  · simp [postUpload, multerSingle, uploadHandler]
  · intro f hm
    simp [postUpload, multerSingle, hm, uploadHandler]
  · intro f hm hs
    have hle : ¬ f.size ≤ maxFileSize := not_le.mpr hs
    simp [postUpload, multerSingle, hm, hle, uploadHandler]

/-- Claim C6, witness: the missing-file and wrong-type rejections at
concrete requests. -/
theorem upload_rejections_before_db_witness :
    postUpload 100 5 none db0 fs0 false
      = ⟨db0, fs0, .resp 400 [("error", "No file uploaded")], false⟩
    ∧ pdfFile.mimetype ∉ allowedTypes
    ∧ postUpload 100 5 (some pdfFile) db0 fs0 false
      = ⟨db0, fs0, .resp 400 [("error", "No file uploaded")], false⟩ :=
  ⟨(upload_rejections_before_db 100 5 db0 fs0 false).1, by decide,
    (upload_rejections_before_db 100 5 db0 fs0 false).2.1 pdfFile (by decide)⟩

/-- Claim C7: when a deletion of an existing id answers 200, the row is no
longer retrievable via listing and the backing file is no longer on disk;
and when the backing file was already absent (with both queries succeeding),
the deletion still answers 200 and removes the row. -/
theorem delete_success_removes_row_and_file (idParam : String) (db : DbState)
    (fs : FsState) (sf df : Bool) (id : Int) (r : ImageRow)
    (hp : parseIntJS idParam = some id) (hr : findRow id db = some r) :
    ((deleteHandler idParam db fs sf df).outcome
        = .resp 200 [("message", "Image deleted")] →
      (∀ row ∈ listAll (deleteHandler idParam db fs sf df).db, row.id ≠ id)
      ∧ relativeOf r.image_path ∉ (deleteHandler idParam db fs sf df).fs.files)
    ∧ (sf = false → df = false → relativeOf r.image_path ∉ fs.files →
        (deleteHandler idParam db fs sf df).outcome
          = .resp 200 [("message", "Image deleted")]
        ∧ ∀ row ∈ listAll (deleteHandler idParam db fs sf df).db, row.id ≠ id) := by
  cases sf with
  | true =>
    constructor
    · intro h
      exfalso
      simp [deleteHandler, hp] at h
    · intro hsf
      exact absurd hsf (by simp)
  | false =>
    by_cases he : relativeOf r.image_path ∈ fs.files
    · by_cases hl : relativeOf r.image_path ∈ fs.locked
      · have hu := unlinkSync_locked (relativeOf r.image_path) fs hl
        have hres : deleteHandler idParam db fs false df
            = ⟨db, fs, .resp 500 [("error", "Delete failed")], true, true⟩ := by
          simp [deleteHandler, hp, hr, existsSync, he, hu]
        constructor
        · intro h
          rw [hres] at h
          exact absurd h (by simp)
        · intro _ _ habs
          exact absurd he habs
      · have hu := unlinkSync_ok (relativeOf r.image_path) fs he hl
        cases df with
        | true =>
          have hres : deleteHandler idParam db fs false true
              = ⟨db, ⟨fs.files.filter
                  (fun q => decide (q ≠ relativeOf r.image_path)), fs.locked⟩,
                 .resp 500 [("error", "Delete failed")], true, true⟩ := by
            simp [deleteHandler, hp, hr, existsSync, he, hu]
          constructor
          · intro h
            rw [hres] at h
            exact absurd h (by simp)
          · intro _ hdf
            exact absurd hdf (by simp)
        | false =>
          have hres : deleteHandler idParam db fs false false
              = ⟨dbDelete id db, ⟨fs.files.filter
                  (fun q => decide (q ≠ relativeOf r.image_path)), fs.locked⟩,
                 .resp 200 [("message", "Image deleted")], true, true⟩ := by
            simp [deleteHandler, hp, hr, existsSync, he, hu]
          constructor
          · intro _
            rw [hres]
            exact ⟨dbDelete_id_not_mem id db, not_mem_filter_ne _ _⟩
          · intro _ _ habs
            exact absurd he habs
    · cases df with
      | true =>
        have hres : deleteHandler idParam db fs false true
            = ⟨db, fs, .resp 500 [("error", "Delete failed")], true, true⟩ := by
          simp [deleteHandler, hp, hr, existsSync, he]
        constructor
        · intro h
          rw [hres] at h
          exact absurd h (by simp)
        · intro _ hdf
          exact absurd hdf (by simp)
      | false =>
        have hres : deleteHandler idParam db fs false false
            = ⟨dbDelete id db, fs, .resp 200 [("message", "Image deleted")],
               true, true⟩ := by
          simp [deleteHandler, hp, hr, existsSync, he]
        constructor
        · intro _
          rw [hres]
          exact ⟨dbDelete_id_not_mem id db, he⟩
        · intro _ _ _
          rw [hres]
          exact ⟨rfl, dbDelete_id_not_mem id db⟩

/-- Claim C7, witness: deleting id 1 from the one-row store with its file on
disk. -/
theorem delete_success_removes_row_and_file_witness :
    parseIntJS "1" = some 1
    ∧ findRow 1 db1 = some ⟨1, "/uploads/images/a.jpg"⟩
    ∧ ((∀ row ∈ listAll (deleteHandler "1" db1 fs1 false false).db, row.id ≠ 1)
        ∧ relativeOf (ImageRow.mk 1 "/uploads/images/a.jpg").image_path
            ∉ (deleteHandler "1" db1 fs1 false false).fs.files) :=
  ⟨by decide, by decide,
    (delete_success_removes_row_and_file "1" db1 fs1 false false 1
      ⟨1, "/uploads/images/a.jpg"⟩ (by decide) (by decide)).1 (by decide)⟩

end ImageUploader
